import Mathlib

/-!
Shallow embedding of the entrepedia password-reset edge function
(`supabase/functions/password-reset/index.ts`), the job-application dialog
(`src/components/jobs/ApplyJobDialog.tsx`) and the job-detail view
(`JobDetail`, an unnamed source file), together with proofs of the frozen
claims about them.

Database state is modelled as lists of rows; each handler is a pure
function from the database, the current time (milliseconds), and the
request fields to a `Response` plus the ordered trace of database
operations it performs.  Timestamps are natural numbers (milliseconds
since epoch); the source compares ISO-8601 strings of a fixed format,
which orders exactly as the underlying instants do.
-/

namespace Entrepedia

/-- Row of the `password_reset_otps` table. -/
structure OtpRow where
  id : Nat
  mobile_number : String
  otp_code : String
  expires_at : Nat
  is_used : Bool
deriving Repr, DecidableEq

/-- Row of the `user_credentials` table. -/
structure CredRow where
  id : Nat
  mobile_number : String
  password_hash : String
  updated_at : Nat
deriving Repr, DecidableEq

/-- Row of the `user_sessions` table. -/
structure SessionRow where
  id : Nat
  user_id : Nat
  is_active : Bool
deriving Repr, DecidableEq

/-- The database state visible to the password-reset function. -/
structure DB where
  user_credentials : List CredRow
  password_reset_otps : List OtpRow
  user_sessions : List SessionRow
deriving Repr, DecidableEq

/-- JSON response of the edge function: HTTP status plus the body fields
that occur across the three action branches (absent fields are `none` /
`false`). -/
structure Response where
  status : Nat
  error : Option String := none
  success : Bool := false
  message : Option String := none
  debug_otp : Option String := none
  verified : Bool := false
deriving Repr, DecidableEq

/-- Primitive database operations the handler issues, in source order.
Reads are recorded in the trace but have no effect on the state. -/
inductive DbOp where
  | readCred (mobile : String)
  | readOtp (mobile otp : String)
  | deleteOtps (mobile : String)
  | insertOtp (row : OtpRow)
  | updatePassword (mobile hash : String) (updatedAt : Nat)
  | markOtpUsed (id : Nat)
  | deactivateSessions (userId : Nat)
deriving Repr, DecidableEq

/-- Effect of one operation on the database.  `deleteOtps` removes every
OTP row for the mobile number; `insertOtp` appends; the three updates map
over their tables; reads change nothing. -/
def applyOp (db : DB) : DbOp → DB
  | .readCred _ => db
  | .readOtp _ _ => db
  | .deleteOtps m =>
      { db with password_reset_otps :=
          db.password_reset_otps.filter (fun r => !(r.mobile_number == m)) }
  | .insertOtp row =>
      { db with password_reset_otps := db.password_reset_otps ++ [row] }
  | .updatePassword m h t =>
      { db with user_credentials :=
          db.user_credentials.map (fun r =>
            if r.mobile_number == m then { r with password_hash := h, updated_at := t } else r) }
  | .markOtpUsed i =>
      { db with password_reset_otps :=
          db.password_reset_otps.map (fun r =>
            if r.id == i then { r with is_used := true } else r) }
  | .deactivateSessions u =>
      { db with user_sessions :=
          db.user_sessions.map (fun s =>
            if s.user_id == u then { s with is_active := false } else s) }

/-- Apply a trace of operations in order. -/
def applyOps (db : DB) (ops : List DbOp) : DB :=
  ops.foldl applyOp db

/-- JavaScript truthiness of an optional string field of the request body:
`undefined`, `null` and `""` are falsy. -/
def strTruthy : Option String → Bool
  | none => false
  | some s => !(s == "")

/-- The regular expression test `/^[0-9]{10}$/.test(m)`: exactly ten
characters, each a decimal digit. -/
def isValidMobile (m : String) : Bool :=
  m.length == 10 && m.data.all (fun c => c.isDigit)

/-- Lookup of the credential row for a mobile number
(`.from("user_credentials").select(...).eq("mobile_number", m).maybeSingle()`):
first row whose `mobile_number` matches. -/
def findCred (db : DB) (m : String) : Option CredRow :=
  db.user_credentials.find? (fun r => r.mobile_number == m)

/-- Match condition of the OTP lookup shared by `verify_otp` and
`reset_password`: same mobile number, same code, not used, and
`expires_at >= now` (the `.gte` filter on the ISO timestamp). -/
def otpMatches (now : Nat) (m c : String) (r : OtpRow) : Bool :=
  r.mobile_number == m && r.otp_code == c && r.is_used == false && now ≤ r.expires_at

/-- The `.maybeSingle()` OTP lookup: first row satisfying `otpMatches`. -/
def findValidOtp (db : DB) (now : Nat) (m c : String) : Option OtpRow :=
  db.password_reset_otps.find? (otpMatches now m c)

/-- Decimal digits of a natural number, most significant first, as
produced by JavaScript `Number.prototype.toString()`. -/
def decDigits (n : Nat) : List Char :=
  if _h : n < 10 then [Nat.digitChar n]
  else decDigits (n / 10) ++ [Nat.digitChar (n % 10)]
termination_by n
decreasing_by exact Nat.div_lt_self (by omega) (by omega)

/-- The source's `generateOTP`:
`Math.floor(100000 + Math.random() * 900000).toString()`.
`Math.random()` yields a real in `[0, 1)`, so the floored value is
`100000 + k` for an integer `k` in `[0, 900000)`; the random source is
modelled by the parameter `rand`, reduced mod 900000. -/
def generateOTP (rand : Nat) : String :=
  String.mk (decDigits (100000 + rand % 900000))

/-- The `request_otp` branch.  `rand` models the `Math.random()` draw,
`freshId` the row id the table store assigns to the inserted row (the
source never reads it back in this branch), and `insertFails` whether the
insert errors.  The inserted row's `is_used` starts `false` (the insert
names no `is_used` column, so the table default applies).  Returns the
response and the trace of database operations performed. -/
def request_otp (db : DB) (now : Nat) (mobile_number : Option String)
    (rand freshId : Nat) (insertFails : Bool) : Response × List DbOp :=
  if !(strTruthy mobile_number && isValidMobile (mobile_number.getD "")) then
    ({ status := 400, error := some "Please enter a valid 10-digit mobile number" }, [])
  else
    let m := mobile_number.getD ""
    match findCred db m with
    | none =>
        ({ status := 404, error := some "No account found with this mobile number" },
         [.readCred m])
    | some _ =>
        let otpCode := generateOTP rand
        let expiresAt := now + 10 * 60 * 1000
        if insertFails then
          ({ status := 500, error := some "Failed to generate OTP" },
           [.readCred m, .deleteOtps m])
        else
          ({ status := 200, success := true, message := some "OTP sent successfully",
             debug_otp := some otpCode },
           [.readCred m, .deleteOtps m,
            .insertOtp ⟨freshId, m, otpCode, expiresAt, false⟩])

/-- The `verify_otp` branch: a pure lookup, no writes. -/
def verify_otp (db : DB) (now : Nat) (mobile_number otp : Option String) :
    Response × List DbOp :=
  if !(strTruthy mobile_number && strTruthy otp) then
    ({ status := 400, error := some "Mobile number and OTP are required" }, [])
  else
    let m := mobile_number.getD ""
    let c := otp.getD ""
    match findValidOtp db now m c with
    | none =>
        ({ status := 400, error := some "Invalid or expired OTP" }, [.readOtp m c])
    | some _ =>
        ({ status := 200, success := true, message := some "OTP verified successfully",
           verified := true }, [.readOtp m c])

/-! ## SHA-256 (embedding of `crypto.subtle.digest("SHA-256", ...)`)

The source's `hashPassword` UTF-8-encodes the password with `TextEncoder`,
digests it with the platform's SHA-256, and renders the digest bytes as
zero-padded lowercase hexadecimal.  The platform primitives are embedded
here: UTF-8 encoding per RFC 3629 and SHA-256 per FIPS 180-4, over `Nat`
with explicit reduction mod `2^32`. -/

/-- UTF-8 encoding of one character (RFC 3629), as `TextEncoder` produces. -/
def utf8EncodeChar (c : Char) : List Nat :=
  let n := c.toNat
  if n < 0x80 then [n]
  else if n < 0x800 then
    [0xC0 ||| (n >>> 6), 0x80 ||| (n &&& 0x3F)]
  else if n < 0x10000 then
    [0xE0 ||| (n >>> 12), 0x80 ||| ((n >>> 6) &&& 0x3F), 0x80 ||| (n &&& 0x3F)]
  else
    [0xF0 ||| (n >>> 18), 0x80 ||| ((n >>> 12) &&& 0x3F),
     0x80 ||| ((n >>> 6) &&& 0x3F), 0x80 ||| (n &&& 0x3F)]

/-- UTF-8 encoding of a string: `new TextEncoder().encode(s)`. -/
def utf8Encode (s : String) : List Nat :=
  s.data.flatMap utf8EncodeChar

/-- Reduction to a 32-bit word. -/
def w32 (n : Nat) : Nat := n % 4294967296

/-- Right rotation of a 32-bit word by `n` bits. -/
def rotr (n x : Nat) : Nat :=
  w32 ((x >>> n) ||| (x <<< (32 - n)))

/-- SHA-256 `Ch` function. -/
def sha256Ch (x y z : Nat) : Nat := (x &&& y) ^^^ ((x ^^^ 4294967295) &&& z)

/-- SHA-256 `Maj` function. -/
def sha256Maj (x y z : Nat) : Nat := (x &&& y) ^^^ (x &&& z) ^^^ (y &&& z)

/-- SHA-256 big sigma 0. -/
def bsig0 (x : Nat) : Nat := rotr 2 x ^^^ rotr 13 x ^^^ rotr 22 x

/-- SHA-256 big sigma 1. -/
def bsig1 (x : Nat) : Nat := rotr 6 x ^^^ rotr 11 x ^^^ rotr 25 x

/-- SHA-256 small sigma 0. -/
def ssig0 (x : Nat) : Nat := rotr 7 x ^^^ rotr 18 x ^^^ (x >>> 3)

/-- SHA-256 small sigma 1. -/
def ssig1 (x : Nat) : Nat := rotr 17 x ^^^ rotr 19 x ^^^ (x >>> 10)

/-- SHA-256 round constants K (FIPS 180-4 §4.2.2), in rounds 0-63 order,
assembled eight at a time. -/
def sha256K : List Nat :=
  [0x428a2f98, 0x71374491, 0xb5c0fbcf, 0xe9b5dba5, 0x3956c25b, 0x59f111f1, 0x923f82a4, 0xab1c5ed5]
  ++ [0xd807aa98, 0x12835b01, 0x243185be, 0x550c7dc3, 0x72be5d74, 0x80deb1fe, 0x9bdc06a7, 0xc19bf174]
  ++ [0xe49b69c1, 0xefbe4786, 0x0fc19dc6, 0x240ca1cc, 0x2de92c6f, 0x4a7484aa, 0x5cb0a9dc, 0x76f988da]
  ++ [0x983e5152, 0xa831c66d, 0xb00327c8, 0xbf597fc7, 0xc6e00bf3, 0xd5a79147, 0x06ca6351, 0x14292967]
  ++ [0x27b70a85, 0x2e1b2138, 0x4d2c6dfc, 0x53380d13, 0x650a7354, 0x766a0abb, 0x81c2c92e, 0x92722c85]
  ++ [0xa2bfe8a1, 0xa81a664b, 0xc24b8b70, 0xc76c51a3, 0xd192e819, 0xd6990624, 0xf40e3585, 0x106aa070]
  ++ [0x19a4c116, 0x1e376c08, 0x2748774c, 0x34b0bcb5, 0x391c0cb3, 0x4ed8aa4a, 0x5b9cca4f, 0x682e6ff3]
  ++ [0x748f82ee, 0x78a5636f, 0x84c87814, 0x8cc70208, 0x90befffa, 0xa4506ceb, 0xbef9a3f7, 0xc67178f2]

/-- SHA-256 initial hash value. -/
def sha256H0 : List Nat :=
  [0x6a09e667, 0xbb67ae85, 0x3c6ef372, 0xa54ff53a, 0x510e527f, 0x9b05688c, 0x1f83d9ab, 0x5be0cd19]

/-- Big-endian 8-byte length field of the padding (message length in bits). -/
def lenBytes (bitLen : Nat) : List Nat :=
  [bitLen >>> 56 &&& 255, bitLen >>> 48 &&& 255, bitLen >>> 40 &&& 255, bitLen >>> 32 &&& 255,
   bitLen >>> 24 &&& 255, bitLen >>> 16 &&& 255, bitLen >>> 8 &&& 255, bitLen &&& 255]

/-- FIPS 180-4 padding: a `0x80` byte, zeros to 56 mod 64, then the
bit length as 8 big-endian bytes. -/
def sha256Pad (msg : List Nat) : List Nat :=
  msg ++ [0x80] ++ List.replicate ((119 - msg.length % 64) % 64) 0 ++ lenBytes (msg.length * 8)

/-- Group padded bytes into 64-byte blocks. -/
def toBlocks (l : List Nat) : List (List Nat) :=
  if l.isEmpty then [] else l.take 64 :: toBlocks (l.drop 64)
termination_by l.length
decreasing_by
  rename_i h
  cases l with
  | nil => simp at h
  | cons a t => simp only [List.length_drop, List.length_cons]; omega

/-- Big-endian 4-byte groups to 32-bit words. -/
def bytesToWords : List Nat → List Nat
  | a :: b :: c :: d :: rest =>
      (a * 16777216 + b * 65536 + c * 256 + d) :: bytesToWords rest
  | _ => []

/-- Extend the 16 block words to the 64-entry message schedule. -/
def extendSchedule (w : Array Nat) : Array Nat :=
  (List.range 48).foldl (fun w _ =>
    let n := w.size
    w.push (w32 (ssig1 w[n-2]! + w[n-7]! + ssig0 w[n-15]! + w[n-16]!))) w

/-- One SHA-256 compression step over a 64-byte block. -/
def compressBlock (h : List Nat) (block : List Nat) : List Nat :=
  let ws := extendSchedule (Array.mk (bytesToWords block))
  let st := (List.range 64).foldl
    (fun (s : Nat × Nat × Nat × Nat × Nat × Nat × Nat × Nat) t =>
      let (a, b, c, d, e, f, g, hh) := s
      let T1 := w32 (hh + bsig1 e + sha256Ch e f g + sha256K[t]! + ws[t]!)
      let T2 := w32 (bsig0 a + sha256Maj a b c)
      (w32 (T1 + T2), a, b, c, w32 (d + T1), e, f, g))
    (h[0]!, h[1]!, h[2]!, h[3]!, h[4]!, h[5]!, h[6]!, h[7]!)
  [w32 (h[0]! + st.1), w32 (h[1]! + st.2.1), w32 (h[2]! + st.2.2.1),
   w32 (h[3]! + st.2.2.2.1), w32 (h[4]! + st.2.2.2.2.1), w32 (h[5]! + st.2.2.2.2.2.1),
   w32 (h[6]! + st.2.2.2.2.2.2.1), w32 (h[7]! + st.2.2.2.2.2.2.2)]

/-- One 32-bit word to four big-endian bytes (each reduced mod 256). -/
def wordToBytes (w : Nat) : List Nat :=
  [w / 16777216 % 256, w / 65536 % 256, w / 256 % 256, w % 256]

/-- SHA-256 digest of a byte sequence, as 32 bytes. -/
def sha256 (msg : List Nat) : List Nat :=
  ((toBlocks (sha256Pad msg)).foldl compressBlock sha256H0).flatMap wordToBytes

/-- Hexadecimal digits of a natural number, most significant first,
lowercase, as produced by JavaScript `toString(16)`. -/
def hexDigits (n : Nat) : List Char :=
  if _h : n < 16 then [Nat.digitChar n]
  else hexDigits (n / 16) ++ [Nat.digitChar (n % 16)]
termination_by n
decreasing_by exact Nat.div_lt_self (by omega) (by omega)

/-- One digest byte rendered as `b.toString(16).padStart(2, "0")`:
for a byte the hex form has one or two digits, padded to exactly two. -/
def byteToHex (b : Nat) : String :=
  let s := String.mk (hexDigits b)
  if s.length < 2 then "0" ++ s else s

/-- The source's `hashPassword`: SHA-256 of the UTF-8 encoded password,
rendered as lowercase zero-padded hex. -/
def hashPassword (password : String) : String :=
  String.join ((sha256 (utf8Encode password)).map byteToHex)

/-- The `reset_password` branch.  `updateFails` models the credential
update erroring (in which case the handler returns 500 before the OTP is
marked used).  The session-owner lookup happens, as in the source, after
the password update has been applied. -/
def reset_password (db : DB) (now : Nat)
    (mobile_number otp new_password : Option String) (updateFails : Bool) :
    Response × List DbOp :=
  if !(strTruthy mobile_number && strTruthy otp && strTruthy new_password) then
    ({ status := 400, error := some "Mobile number, OTP, and new password are required" }, [])
  else if (new_password.getD "").length < 6 then
    ({ status := 400, error := some "Password must be at least 6 characters" }, [])
  else
    let m := mobile_number.getD ""
    let c := otp.getD ""
    let pw := new_password.getD ""
    match findValidOtp db now m c with
    | none =>
        ({ status := 400, error := some "Invalid or expired OTP. Please request a new one." },
         [.readOtp m c])
    | some r =>
        let passwordHash := hashPassword pw
        if updateFails then
          ({ status := 500, error := some "Failed to update password" }, [.readOtp m c])
        else
          let opsBase : List DbOp :=
            [.readOtp m c, .updatePassword m passwordHash now, .markOtpUsed r.id, .readCred m]
          let db1 := applyOps db opsBase
          match findCred db1 m with
          | none =>
              ({ status := 200, success := true,
                 message := some "Password reset successfully. Please sign in with your new password." },
               opsBase)
          | some cred =>
              ({ status := 200, success := true,
                 message := some "Password reset successfully. Please sign in with your new password." },
               opsBase ++ [.deactivateSessions cred.id])

/-! ## Job application dialog (`ApplyJobDialog.tsx`) -/

/-- The fields `handleApply` re-fetches from the `jobs` table before
inserting (`select('status, expires_at, max_applications')`). -/
structure JobData where
  status : String
  expires_at : Option Nat
  max_applications : Option Nat
deriving Repr, DecidableEq

/-- User-visible outcome of `handleApply`: which toast is shown. -/
inductive ApplyResult where
  | loginRequired
  | fetchFailed
  | jobClosed
  | jobExpired
  | alreadyApplied
  | genericFailure
  | applied
deriving Repr, DecidableEq

/-- The dialog's expiry re-check:
`jobData.expires_at && new Date(jobData.expires_at) < new Date()`
(a `null` timestamp is falsy and skips the comparison). -/
def jobDataExpired (now : Nat) (jd : JobData) : Bool :=
  match jd.expires_at with
  | none => false
  | some t => decide (t < now)

/-- Modelled from the spec: the `job_applications` table's uniqueness
constraint, which is schema owned by the table store and not present under
`src/`.  Per the spec, one application per (job, applicant) pair is
enforced by the constraint layer and surfaced as a distinguishable
conflict error; the conflict error code observed by the dialog is
`"23505"`.  Returns the error code (if any) and the new table contents. -/
def insertApplication (apps : List (Nat × Nat)) (jobId applicantId : Nat) :
    Option String × List (Nat × Nat) :=
  if (jobId, applicantId) ∈ apps then (some "23505", apps)
  else (none, apps ++ [(jobId, applicantId)])

/-- Error mapping of `handleApply`'s insert branch: code `'23505'` shows
the duplicate toast; any other error is rethrown and caught as a generic
failure toast. -/
def mapInsertError (code : String) : ApplyResult :=
  if code == "23505" then .alreadyApplied else .genericFailure

/-- The dialog's `handleApply`: login check, job re-fetch (modelled by the
`jobFetch` argument, `none` when the fetch errors), status and expiry
re-checks, then the insert with its error mapping. -/
def handleApply (user : Option Nat) (now jobId : Nat)
    (jobFetch : Option JobData) (apps : List (Nat × Nat)) :
    ApplyResult × List (Nat × Nat) :=
  match user with
  | none => (.loginRequired, apps)
  | some uid =>
    match jobFetch with
    | none => (.fetchFailed, apps)
    | some jd =>
      if !(jd.status == "open") then (.jobClosed, apps)
      else if jobDataExpired now jd then (.jobExpired, apps)
      else
        match insertApplication apps jobId uid with
        | (some code, apps') => (mapInsertError code, apps')
        | (none, apps') => (.applied, apps')

/-! ## Job detail view (`JobDetail`) -/

/-- The job fields the detail view's closed/open logic reads. -/
structure Job where
  status : String
  expires_at : Option Nat
  max_applications : Option Nat
  application_count : Option Nat
  creator_id : Nat
deriving Repr, DecidableEq

/-- JavaScript truthiness of an optional numeric field: `null`,
`undefined` and `0` are falsy. -/
def numTruthy : Option Nat → Bool
  | none => false
  | some n => !(n == 0)

/-- The view's `isExpired`:
`job.status === 'closed' || (job.expires_at && new Date(job.expires_at) < new Date()) || (job.max_applications && job.application_count && job.application_count >= job.max_applications)`. -/
def isExpired (now : Nat) (job : Job) : Bool :=
  job.status == "closed"
  || (match job.expires_at with
      | none => false
      | some t => decide (t < now))
  || (numTruthy job.max_applications && numTruthy job.application_count
      && job.max_applications.getD 0 ≤ job.application_count.getD 0)

/-- Text of the status badge: `isExpired ? 'Offer Ended' : 'Open'`. -/
def badgeText (now : Nat) (job : Job) : String :=
  if isExpired now job then "Offer Ended" else "Open"

/-- Whether the apply dialog is rendered:
`!isExpired && !isCreator && user`. -/
def showApplyDialog (now : Nat) (user : Option Nat) (job : Job) : Bool :=
  !isExpired now job && !(user == some job.creator_id) && user.isSome

/-! ## Digit-rendering lemmas -/

/-- Lowercase hexadecimal digit test (the alphabet of the rendered
password hash). -/
def isLowerHexDigit (ch : Char) : Bool :=
  ch.isDigit || ('a' ≤ ch && ch ≤ 'f')

theorem digitChar_isDigit {n : Nat} (h : n < 10) : (Nat.digitChar n).isDigit = true := by
  interval_cases n <;> decide

theorem digitChar_isLowerHex {n : Nat} (h : n < 16) :
    isLowerHexDigit (Nat.digitChar n) = true := by
  interval_cases n <;> decide

theorem decDigits_all_digits (n : Nat) : ∀ ch ∈ decDigits n, ch.isDigit = true := by
  induction n using Nat.strong_induction_on with
  | _ n ih =>
    rw [decDigits]
    by_cases h : n < 10
    · simp only [h, dite_true, List.mem_singleton]
      rintro ch rfl
      exact digitChar_isDigit h
    · simp only [h, dite_false, List.mem_append, List.mem_singleton]
      rintro ch (hc | rfl)
      · exact ih (n / 10) (Nat.div_lt_self (by omega) (by omega)) ch hc
      · exact digitChar_isDigit (Nat.mod_lt n (by omega))

theorem decDigits_length {k n : Nat} (h1 : 10 ^ k ≤ n) (h2 : n < 10 ^ (k + 1)) :
    (decDigits n).length = k + 1 := by
  induction k generalizing n with
  | zero =>
    have h2' : n < 10 := by simpa using h2
    rw [decDigits]
    simp [h2']
  | succ k ih =>
    have h10 : ¬ n < 10 := by
      have : (10 : Nat) ≤ 10 ^ (k + 1) := by
        calc (10 : Nat) = 10 ^ 1 := (pow_one 10).symm
        _ ≤ 10 ^ (k + 1) := Nat.pow_le_pow_right (by omega) (by omega)
      omega
    rw [decDigits]
    simp only [h10, dite_false, List.length_append, List.length_singleton]
    have hlo : 10 ^ k ≤ n / 10 := by
      rw [Nat.le_div_iff_mul_le (by omega)]
      calc 10 ^ k * 10 = 10 ^ (k + 1) := by ring
      _ ≤ n := h1
    have hhi : n / 10 < 10 ^ (k + 1) := by
      rw [Nat.div_lt_iff_lt_mul (by omega)]
      calc n < 10 ^ (k + 2) := h2
      _ = 10 ^ (k + 1) * 10 := by ring
    rw [ih hlo hhi]

theorem generateOTP_val (rand : Nat) :
    generateOTP rand = String.mk (decDigits (100000 + rand % 900000)) := rfl

theorem generateOTP_length (rand : Nat) : (generateOTP rand).length = 6 := by
  have h1 : (10 : Nat) ^ 5 ≤ 100000 + rand % 900000 := by norm_num
  have h2 : 100000 + rand % 900000 < 10 ^ (5 + 1) := by
    have := Nat.mod_lt rand (show 0 < 900000 by omega)
    norm_num
    omega
  show (decDigits (100000 + rand % 900000)).length = 6
  rw [decDigits_length h1 h2]

theorem generateOTP_digits (rand : Nat) :
    ∀ ch ∈ (generateOTP rand).data, ch.isDigit = true :=
  decDigits_all_digits (100000 + rand % 900000)

theorem eq_of_length_le_one {α : Type} {l : List α} (h : l.length ≤ 1)
    {a b : α} (ha : a ∈ l) (hb : b ∈ l) : a = b := by
  match l with
  | [] => cases ha
  | [x] =>
    simp only [List.mem_singleton] at ha hb
    rw [ha, hb]
  | x :: y :: t => simp at h

/-- Inversion of a successful `request_otp` call: the mobile number was
supplied, the insert did not fail, and the response and trace have the
shapes of the success branch. -/
theorem request_otp_success (db : DB) (now : Nat) (mobile : Option String)
    (rand freshId : Nat) (insertFails : Bool)
    (hs : (request_otp db now mobile rand freshId insertFails).fst.status = 200) :
    ∃ m, mobile = some m ∧ insertFails = false ∧
      request_otp db now mobile rand freshId insertFails =
        ({ status := 200, success := true, message := some "OTP sent successfully",
           debug_otp := some (generateOTP rand) },
         [.readCred m, .deleteOtps m,
          .insertOtp ⟨freshId, m, generateOTP rand, now + 10 * 60 * 1000, false⟩]) := by
  cases mobile with
  | none => simp [request_otp, strTruthy] at hs
  | some m =>
    refine ⟨m, rfl, ?_⟩
    unfold request_otp at hs ⊢
    simp only [Option.getD_some] at hs ⊢
    split at hs
    · simp at hs
    · rename_i hcond
      rw [if_neg hcond]
      cases hfc : findCred db m with
      | none => simp_all
      | some cr =>
        cases insertFails with
        | true => simp_all
        | false => simp_all

/-- C1: in the `request_otp` branch, an absent mobile number or one that
is not a string of exactly ten decimal digits yields a 400 error with an
empty database-operation trace (no reads, no writes), while every
ten-digit numeric string passes the validation and proceeds to the
credential lookup: the first database operation of the call is the read
of `user_credentials` for that number. -/
theorem request_otp_mobile_validation (db : DB) (now rand freshId : Nat)
    (insertFails : Bool) (mobile : Option String) :
    (mobile = none →
      request_otp db now mobile rand freshId insertFails =
        ({ status := 400, error := some "Please enter a valid 10-digit mobile number" }, []))
    ∧ (∀ m, mobile = some m → isValidMobile m = false →
      request_otp db now mobile rand freshId insertFails =
        ({ status := 400, error := some "Please enter a valid 10-digit mobile number" }, []))
    ∧ (∀ m, mobile = some m → m.length = 10 → (∀ ch ∈ m.data, ch.isDigit = true) →
      (request_otp db now mobile rand freshId insertFails).snd.head?
        = some (DbOp.readCred m)) := by
  refine ⟨?_, ?_, ?_⟩
  · rintro rfl
    simp [request_otp, strTruthy]
  · rintro m rfl hval
    simp [request_otp, hval]
  · rintro m rfl hlen hdigits
    have hne : (m == "") = false := by
      rw [beq_eq_false_iff_ne]
      intro h
      rw [h] at hlen
      simp at hlen
    have hval : isValidMobile m = true := by
      simp only [isValidMobile, hlen, beq_self_eq_true, Bool.true_and, List.all_eq_true]
      exact hdigits
    cases hfc : findCred db m with
    | none => simp [request_otp, strTruthy, hne, hval, hfc]
    | some cr =>
      cases insertFails <;> simp [request_otp, strTruthy, hne, hval, hfc]

theorem request_otp_mobile_validation_witness :
    (request_otp ⟨[], [], []⟩ 0 (some "12345") 0 0 false =
      ({ status := 400, error := some "Please enter a valid 10-digit mobile number" }, []))
    ∧ (request_otp ⟨[⟨1, "9876543210", "h", 0⟩], [], []⟩ 0 (some "9876543210") 0 0
        false).snd.head? = some (DbOp.readCred "9876543210") :=
  ⟨(request_otp_mobile_validation ⟨[], [], []⟩ 0 0 0 false (some "12345")).2.1
      "12345" rfl (by decide),
   (request_otp_mobile_validation ⟨[⟨1, "9876543210", "h", 0⟩], [], []⟩ 0 0 0 false
      (some "9876543210")).2.2 "9876543210" rfl (by decide) (by decide)⟩

/-- C5: `verify_otp` performs no database writes — applying its operation
trace returns the starting state unchanged — and consequently running the
very same verification again yields the very same response: a valid
unexpired code can be verified any number of times with the same success
until something else changes the state. -/
theorem verify_otp_no_writes (db : DB) (now : Nat) (mobile otp : Option String) :
    applyOps db (verify_otp db now mobile otp).snd = db
    ∧ verify_otp (applyOps db (verify_otp db now mobile otp).snd) now mobile otp
        = verify_otp db now mobile otp := by
  have h : applyOps db (verify_otp db now mobile otp).snd = db := by
    unfold verify_otp
    split
    · rfl
    · cases hf : findValidOtp db now (mobile.getD "") (otp.getD "") <;>
        simp [applyOps, applyOp, hf]
  exact ⟨h, by rw [h]⟩

/-- C7: the first application by a (job, applicant) pair succeeds and a
second application by the same pair fails with the duplicate-specific
toast; the table-store conflict code `'23505'` — and only that code — is
mapped to the duplicate message, every other insert error being surfaced
as the generic failure. -/
theorem apply_job_duplicate (now jobId uid : Nat) (jd : JobData)
    (apps : List (Nat × Nat))
    (hopen : jd.status = "open") (hexp : jobDataExpired now jd = false)
    (hnew : (jobId, uid) ∉ apps) :
    handleApply (some uid) now jobId (some jd) apps
      = (ApplyResult.applied, apps ++ [(jobId, uid)])
    ∧ handleApply (some uid) now jobId (some jd) (apps ++ [(jobId, uid)])
      = (ApplyResult.alreadyApplied, apps ++ [(jobId, uid)])
    ∧ mapInsertError "23505" = ApplyResult.alreadyApplied
    ∧ (∀ code, code ≠ "23505" → mapInsertError code = ApplyResult.genericFailure) := by
  refine ⟨?_, ?_, rfl, ?_⟩
  · simp [handleApply, hopen, hexp, insertApplication, hnew]
  · simp [handleApply, hopen, hexp, insertApplication, mapInsertError]
  · intro code hcode
    simp [mapInsertError, hcode]

theorem apply_job_duplicate_witness :
    handleApply (some 7) 50 3 (some ⟨"open", some 100, none⟩) []
      = (ApplyResult.applied, [(3, 7)])
    ∧ handleApply (some 7) 50 3 (some ⟨"open", some 100, none⟩) [(3, 7)]
      = (ApplyResult.alreadyApplied, [(3, 7)]) := by
  have h := apply_job_duplicate 50 3 7 ⟨"open", some 100, none⟩ []
    rfl (by decide) (by decide)
  exact ⟨h.1, h.2.1⟩

/-- C8: a job whose `expires_at` timestamp is strictly earlier than the
current time is rendered closed by the detail view — `isExpired` is
`true`, the badge reads "Offer Ended", and the apply dialog is not
rendered for any user — regardless of the stored `status` field. -/
theorem expired_job_rendered_closed (now t : Nat) (job : Job) (user : Option Nat)
    (hexp : job.expires_at = some t) (ht : t < now) :
    isExpired now job = true ∧ badgeText now job = "Offer Ended"
    ∧ showApplyDialog now user job = false := by
  have h1 : isExpired now job = true := by
    simp only [isExpired, hexp, Bool.or_eq_true, decide_eq_true_eq]
    exact Or.inl (Or.inr ht)
  refine ⟨h1, by simp [badgeText, h1], by simp [showApplyDialog, h1]⟩

theorem expired_job_rendered_closed_witness :
    isExpired 1000 ⟨"open", some 999, none, none, 4⟩ = true
    ∧ badgeText 1000 ⟨"open", some 999, none, none, 4⟩ = "Offer Ended"
    ∧ showApplyDialog 1000 (some 8) ⟨"open", some 999, none, none, 4⟩ = false :=
  expired_job_rendered_closed 1000 999 ⟨"open", some 999, none, none, 4⟩ (some 8)
    rfl (by decide)

/-- Filter shape of the OTP table after a successful `request_otp`: the
delete removed every row for the number and the insert appended the fresh
one, so exactly one row for the number remains. -/
theorem request_otp_success_filter (db : DB) (now rand freshId : Nat)
    (insertFails : Bool) (mobile : Option String)
    (hs : (request_otp db now mobile rand freshId insertFails).fst.status = 200) :
    ∃ m, mobile = some m ∧
      (applyOps db (request_otp db now mobile rand freshId insertFails).snd).password_reset_otps.filter
          (fun r => r.mobile_number == m)
        = [⟨freshId, m, generateOTP rand, now + 10 * 60 * 1000, false⟩] := by
  obtain ⟨m, rfl, -, heq⟩ := request_otp_success db now mobile rand freshId insertFails hs
  refine ⟨m, rfl, ?_⟩
  rw [heq]
  simp only [applyOps, List.foldl_cons, List.foldl_nil, applyOp]
  rw [List.filter_append, List.filter_filter]
  have h1 : (db.password_reset_otps.filter
      (fun r => r.mobile_number == m && !(r.mobile_number == m))) = [] := by
    rw [List.filter_eq_nil_iff]
    intro r _
    cases h : r.mobile_number == m <;> simp [h]
  rw [h1]
  simp

/-- C2: after a successful `request_otp` call, the OTP table contains
exactly one row for the requested mobile number — the freshly inserted
row, whose expiry timestamp is exactly 10 minutes (600000 ms) after the
call's insertion time — and a second successful request on the resulting
state again leaves exactly one row for that number. -/
theorem request_otp_single_row (db : DB) (now now2 rand rand2 freshId freshId2 : Nat)
    (insertFails insertFails2 : Bool) (mobile : Option String)
    (hs : (request_otp db now mobile rand freshId insertFails).fst.status = 200) :
    ∃ m, mobile = some m ∧
      ((applyOps db (request_otp db now mobile rand freshId insertFails).snd).password_reset_otps.filter
          (fun r => r.mobile_number == m)
        = [⟨freshId, m, generateOTP rand, now + 10 * 60 * 1000, false⟩])
      ∧ (∀ db1, db1 = applyOps db (request_otp db now mobile rand freshId insertFails).snd →
          (request_otp db1 now2 mobile rand2 freshId2 insertFails2).fst.status = 200 →
          (applyOps db1 (request_otp db1 now2 mobile rand2 freshId2 insertFails2).snd).password_reset_otps.filter
              (fun r => r.mobile_number == m)
            = [⟨freshId2, m, generateOTP rand2, now2 + 10 * 60 * 1000, false⟩]) := by
  obtain ⟨m, hm, hfil⟩ := request_otp_success_filter db now rand freshId insertFails mobile hs
  refine ⟨m, hm, hfil, ?_⟩
  rintro db1 rfl hs2
  obtain ⟨m', hm', hfil2⟩ := request_otp_success_filter _ now2 rand2 freshId2 insertFails2 mobile hs2
  rw [hm] at hm'
  cases hm'
  exact hfil2

theorem request_otp_single_row_witness :
    ∃ m, (some "9876543210" : Option String) = some m ∧
      ((applyOps ⟨[⟨1, "9876543210", "h", 0⟩], [⟨5, "9876543210", "111111", 9, false⟩], []⟩
          (request_otp ⟨[⟨1, "9876543210", "h", 0⟩], [⟨5, "9876543210", "111111", 9, false⟩], []⟩
            42 (some "9876543210") 3 6 false).snd).password_reset_otps.filter
          (fun r => r.mobile_number == m)
        = [⟨6, m, generateOTP 3, 42 + 10 * 60 * 1000, false⟩])
      ∧ (∀ db1, db1 = applyOps ⟨[⟨1, "9876543210", "h", 0⟩], [⟨5, "9876543210", "111111", 9, false⟩], []⟩
            (request_otp ⟨[⟨1, "9876543210", "h", 0⟩], [⟨5, "9876543210", "111111", 9, false⟩], []⟩
              42 (some "9876543210") 3 6 false).snd →
          (request_otp db1 77 (some "9876543210") 4 8 false).fst.status = 200 →
          (applyOps db1 (request_otp db1 77 (some "9876543210") 4 8 false).snd).password_reset_otps.filter
              (fun r => r.mobile_number == m)
            = [⟨8, m, generateOTP 4, 77 + 10 * 60 * 1000, false⟩]) :=
  request_otp_single_row ⟨[⟨1, "9876543210", "h", 0⟩], [⟨5, "9876543210", "111111", 9, false⟩], []⟩
    42 77 3 4 6 8 false false (some "9876543210") (by decide)

/-- C6: a successful `request_otp` responds with `success: true` and a
`debug_otp` body field that is unconditionally present and exactly equal
to the `otp_code` stored in the newly inserted OTP row, and the generated
code is a string of exactly six decimal digits. -/
theorem request_otp_debug_leak (db : DB) (now rand freshId : Nat)
    (insertFails : Bool) (mobile : Option String)
    (hs : (request_otp db now mobile rand freshId insertFails).fst.status = 200) :
    ∃ m row,
      mobile = some m
      ∧ (request_otp db now mobile rand freshId insertFails).snd
          = [DbOp.readCred m, DbOp.deleteOtps m, DbOp.insertOtp row]
      ∧ row ∈ (applyOps db (request_otp db now mobile rand freshId insertFails).snd).password_reset_otps
      ∧ (request_otp db now mobile rand freshId insertFails).fst.success = true
      ∧ (request_otp db now mobile rand freshId insertFails).fst.debug_otp = some row.otp_code
      ∧ row.otp_code.length = 6
      ∧ (∀ ch ∈ row.otp_code.data, ch.isDigit = true) := by
  obtain ⟨m, rfl, -, heq⟩ := request_otp_success db now mobile rand freshId insertFails hs
  refine ⟨m, ⟨freshId, m, generateOTP rand, now + 10 * 60 * 1000, false⟩, rfl, ?_, ?_, ?_, ?_, ?_, ?_⟩
  · rw [heq]
  · rw [heq]
    simp [applyOps, applyOp]
  · rw [heq]
  · rw [heq]
  · exact generateOTP_length rand
  · exact generateOTP_digits rand

theorem request_otp_debug_leak_witness :
    ∃ m row, (some "9876543210" : Option String) = some m
      ∧ (request_otp ⟨[⟨1, "9876543210", "h", 0⟩], [], []⟩ 42 (some "9876543210") 3 6
          false).snd = [DbOp.readCred m, DbOp.deleteOtps m, DbOp.insertOtp row]
      ∧ row ∈ (applyOps ⟨[⟨1, "9876543210", "h", 0⟩], [], []⟩
          (request_otp ⟨[⟨1, "9876543210", "h", 0⟩], [], []⟩ 42 (some "9876543210") 3 6
            false).snd).password_reset_otps
      ∧ (request_otp ⟨[⟨1, "9876543210", "h", 0⟩], [], []⟩ 42 (some "9876543210") 3 6
          false).fst.success = true
      ∧ (request_otp ⟨[⟨1, "9876543210", "h", 0⟩], [], []⟩ 42 (some "9876543210") 3 6
          false).fst.debug_otp = some row.otp_code
      ∧ row.otp_code.length = 6
      ∧ (∀ ch ∈ row.otp_code.data, ch.isDigit = true) :=
  request_otp_debug_leak ⟨[⟨1, "9876543210", "h", 0⟩], [], []⟩ 42 3 6 false
    (some "9876543210") (by decide)

/-- When every OTP row carrying the presented (mobile, code) pair is past
its expiry, the shared lookup finds nothing. -/
theorem findValidOtp_none_of_expired (db : DB) (now : Nat) (m c : String)
    (hexp : ∀ r ∈ db.password_reset_otps, r.mobile_number = m → r.otp_code = c →
      r.expires_at < now) :
    findValidOtp db now m c = none := by
  rw [findValidOtp, List.find?_eq_none]
  intro r hr
  simp only [otpMatches, Bool.and_eq_true, beq_iff_eq, decide_eq_true_eq, not_and]
  intro h1 h2
  have := hexp r hr h1.1.1 h1.1.2
  omega

/-- C3: a request presenting a (mobile, code) pair all of whose OTP rows
are strictly past expiry is rejected with the 400 "Invalid or expired
OTP" error by `verify_otp` and by `reset_password`, and `reset_password`
leaves the whole database state — credentials, OTPs, sessions — unchanged
in that case. -/
theorem expired_otp_rejected (db : DB) (now : Nat) (m c pw : String) (uf : Bool)
    (hm : m ≠ "") (hc : c ≠ "") (hpw : 6 ≤ pw.length)
    (hexp : ∀ r ∈ db.password_reset_otps, r.mobile_number = m → r.otp_code = c →
      r.expires_at < now) :
    verify_otp db now (some m) (some c)
      = ({ status := 400, error := some "Invalid or expired OTP" }, [DbOp.readOtp m c])
    ∧ reset_password db now (some m) (some c) (some pw) uf
      = ({ status := 400, error := some "Invalid or expired OTP. Please request a new one." },
         [DbOp.readOtp m c])
    ∧ applyOps db (reset_password db now (some m) (some c) (some pw) uf).snd = db := by
  have hfind := findValidOtp_none_of_expired db now m c hexp
  have hmb : (m == "") = false := beq_eq_false_iff_ne.mpr hm
  have hcb : (c == "") = false := beq_eq_false_iff_ne.mpr hc
  have hpwb : (pw == "") = false := by
    rw [beq_eq_false_iff_ne]
    intro h
    rw [h] at hpw
    simp at hpw
  have hlen : ¬ pw.length < 6 := by omega
  have h2 : reset_password db now (some m) (some c) (some pw) uf
      = ({ status := 400, error := some "Invalid or expired OTP. Please request a new one." },
         [DbOp.readOtp m c]) := by
    simp [reset_password, strTruthy, hmb, hcb, hpwb, hlen, hfind]
  refine ⟨?_, h2, ?_⟩
  · simp [verify_otp, strTruthy, hmb, hcb, hfind]
  · rw [h2]
    rfl

theorem expired_otp_rejected_witness :
    verify_otp ⟨[⟨1, "9876543210", "h", 0⟩], [⟨5, "9876543210", "123456", 100, false⟩], []⟩
        200 (some "9876543210") (some "123456")
      = ({ status := 400, error := some "Invalid or expired OTP" },
         [DbOp.readOtp "9876543210" "123456"])
    ∧ reset_password ⟨[⟨1, "9876543210", "h", 0⟩], [⟨5, "9876543210", "123456", 100, false⟩], []⟩
        200 (some "9876543210") (some "123456") (some "secret") false
      = ({ status := 400, error := some "Invalid or expired OTP. Please request a new one." },
         [DbOp.readOtp "9876543210" "123456"])
    ∧ applyOps ⟨[⟨1, "9876543210", "h", 0⟩], [⟨5, "9876543210", "123456", 100, false⟩], []⟩
        (reset_password ⟨[⟨1, "9876543210", "h", 0⟩], [⟨5, "9876543210", "123456", 100, false⟩], []⟩
          200 (some "9876543210") (some "123456") (some "secret") false).snd
      = ⟨[⟨1, "9876543210", "h", 0⟩], [⟨5, "9876543210", "123456", 100, false⟩], []⟩ :=
  expired_otp_rejected ⟨[⟨1, "9876543210", "h", 0⟩], [⟨5, "9876543210", "123456", 100, false⟩], []⟩
    200 "9876543210" "123456" "secret" false (by decide) (by decide) (by decide) (by decide)

/-- Inversion of a successful `reset_password` call: all three request
fields were supplied and truthy, the password passed the length check,
the OTP lookup found a row, the update did not fail, and the trace starts
with the read, the password update and the mark-used in that order,
followed by the credential read and at most a session deactivation. -/
theorem reset_password_success (db : DB) (now : Nat)
    (mobile otp newpw : Option String) (uf : Bool)
    (hs : (reset_password db now mobile otp newpw uf).fst.status = 200) :
    ∃ m c pw r rest,
      mobile = some m ∧ otp = some c ∧ newpw = some pw ∧ uf = false
      ∧ (m == "") = false ∧ (c == "") = false ∧ (pw == "") = false ∧ ¬ pw.length < 6
      ∧ findValidOtp db now m c = some r
      ∧ (reset_password db now mobile otp newpw uf).snd
          = DbOp.readOtp m c :: DbOp.updatePassword m (hashPassword pw) now
            :: DbOp.markOtpUsed r.id :: DbOp.readCred m :: rest
      ∧ (rest = [] ∨ ∃ u, rest = [DbOp.deactivateSessions u]) := by
  cases mobile with
  | none => simp [reset_password, strTruthy] at hs
  | some m =>
  cases otp with
  | none => simp [reset_password, strTruthy] at hs
  | some c =>
  cases newpw with
  | none => simp [reset_password, strTruthy] at hs
  | some pw =>
  by_cases hm : (m == "") = true
  · simp [reset_password, strTruthy, hm] at hs
  · by_cases hc : (c == "") = true
    · simp [reset_password, strTruthy, hm, hc] at hs
    · by_cases hp : (pw == "") = true
      · simp [reset_password, strTruthy, hm, hc, hp] at hs
      · by_cases hlen : pw.length < 6
        · simp [reset_password, strTruthy, hm, hc, hp, hlen] at hs
        · cases hf : findValidOtp db now m c with
          | none => simp [reset_password, strTruthy, hm, hc, hp, hlen, hf] at hs
          | some r =>
            cases uf with
            | true => simp [reset_password, strTruthy, hm, hc, hp, hlen, hf] at hs
            | false =>
              cases hfc : findCred (applyOps db
                  [DbOp.readOtp m c, DbOp.updatePassword m (hashPassword pw) now,
                   DbOp.markOtpUsed r.id, DbOp.readCred m]) m with
              | none =>
                refine ⟨m, c, pw, r, [], rfl, rfl, rfl, rfl, (by simp_all), (by simp_all),
                  (by simp_all), hlen, hf, ?_, Or.inl rfl⟩
                simp [reset_password, strTruthy, hm, hc, hp, hlen, hf, hfc]
              | some cred =>
                refine ⟨m, c, pw, r, [DbOp.deactivateSessions cred.id], rfl, rfl, rfl, rfl,
                  (by simp_all), (by simp_all), (by simp_all), hlen, hf, ?_,
                  Or.inr ⟨cred.id, rfl⟩⟩
                simp [reset_password, strTruthy, hm, hc, hp, hlen, hf, hfc]

/-- Effect on each table of a successful reset trace: the credential rows
for the number get the new hash, the OTP row with the matched id is
marked used, and the other tables' contents are as stated. -/
theorem reset_ops_effect (db : DB) (m c hash : String) (now rid : Nat) (rest : List DbOp)
    (hrest : rest = [] ∨ ∃ u, rest = [DbOp.deactivateSessions u]) :
    (applyOps db (DbOp.readOtp m c :: DbOp.updatePassword m hash now
        :: DbOp.markOtpUsed rid :: DbOp.readCred m :: rest)).password_reset_otps
      = db.password_reset_otps.map
          (fun r => if r.id == rid then { r with is_used := true } else r)
    ∧ (applyOps db (DbOp.readOtp m c :: DbOp.updatePassword m hash now
        :: DbOp.markOtpUsed rid :: DbOp.readCred m :: rest)).user_credentials
      = db.user_credentials.map
          (fun r => if r.mobile_number == m
            then { r with password_hash := hash, updated_at := now } else r) := by
  rcases hrest with rfl | ⟨u, rfl⟩ <;> simp [applyOps, applyOp]

/-- C9: the credential-password update and the OTP mark-used update of a
successful `reset_password` are two separate trace operations issued in
that order; stopping after the password update (a crash before the
mark-used call) leaves the matched OTP row present with `is_used = false`
and the same request still resets successfully from that intermediate
state; and when the update call errors (`updateFails`), the handler
returns 500 with the database unchanged, the OTP still valid. -/
theorem reset_password_nonatomic (db : DB) (now : Nat)
    (mobile otp newpw : Option String)
    (hs : (reset_password db now mobile otp newpw false).fst.status = 200) :
    ∃ m c pw r rest,
      mobile = some m ∧ otp = some c ∧ newpw = some pw
      ∧ (reset_password db now mobile otp newpw false).snd
          = DbOp.readOtp m c :: DbOp.updatePassword m (hashPassword pw) now
            :: DbOp.markOtpUsed r.id :: DbOp.readCred m :: rest
      ∧ (∀ dbMid, dbMid = applyOps db
            [DbOp.readOtp m c, DbOp.updatePassword m (hashPassword pw) now] →
          r ∈ dbMid.password_reset_otps ∧ r.is_used = false
          ∧ (reset_password dbMid now mobile otp newpw false).fst.status = 200)
      ∧ (reset_password db now mobile otp newpw true).fst.status = 500
      ∧ applyOps db (reset_password db now mobile otp newpw true).snd = db := by
  obtain ⟨m, c, pw, r, rest, rfl, rfl, rfl, -, hm, hc, hp, hlen, hf, hsnd, hrest⟩ :=
    reset_password_success db now mobile otp newpw false hs
  have hmatch : otpMatches now m c r = true := List.find?_some hf
  have hmem : r ∈ db.password_reset_otps := List.mem_of_find?_eq_some hf
  have hused : r.is_used = false := by
    simp only [otpMatches, Bool.and_eq_true, beq_iff_eq] at hmatch
    exact hmatch.1.2
  refine ⟨m, c, pw, r, rest, rfl, rfl, rfl, hsnd, ?_, ?_, ?_⟩
  · rintro dbMid rfl
    have hotps : (applyOps db
        [DbOp.readOtp m c, DbOp.updatePassword m (hashPassword pw) now]).password_reset_otps
        = db.password_reset_otps := by
      simp [applyOps, applyOp]
    refine ⟨by rw [hotps]; exact hmem, hused, ?_⟩
    have hfmid : findValidOtp (applyOps db
        [DbOp.readOtp m c, DbOp.updatePassword m (hashPassword pw) now]) now m c = some r := by
      rw [findValidOtp, hotps]
      exact hf
    cases hfc : findCred (applyOps (applyOps db
        [DbOp.readOtp m c, DbOp.updatePassword m (hashPassword pw) now])
          [DbOp.readOtp m c, DbOp.updatePassword m (hashPassword pw) now,
           DbOp.markOtpUsed r.id, DbOp.readCred m]) m <;>
      simp [reset_password, strTruthy, hm, hc, hp, hlen, hfmid, hfc]
  · simp [reset_password, strTruthy, hm, hc, hp, hlen, hf]
  · simp [reset_password, strTruthy, hm, hc, hp, hlen, hf, applyOps, applyOp]

theorem reset_password_nonatomic_witness :
    ∃ m c pw r rest,
      (some "9876543210" : Option String) = some m ∧ (some "123456" : Option String) = some c
      ∧ (some "newpass1" : Option String) = some pw
      ∧ (reset_password ⟨[⟨1, "9876543210", "old", 0⟩], [⟨5, "9876543210", "123456", 1000000, false⟩],
            [⟨2, 1, true⟩]⟩ 500 (some "9876543210") (some "123456") (some "newpass1") false).snd
          = DbOp.readOtp m c :: DbOp.updatePassword m (hashPassword pw) 500
            :: DbOp.markOtpUsed r.id :: DbOp.readCred m :: rest
      ∧ (∀ dbMid, dbMid = applyOps ⟨[⟨1, "9876543210", "old", 0⟩],
            [⟨5, "9876543210", "123456", 1000000, false⟩], [⟨2, 1, true⟩]⟩
            [DbOp.readOtp m c, DbOp.updatePassword m (hashPassword pw) 500] →
          r ∈ dbMid.password_reset_otps ∧ r.is_used = false
          ∧ (reset_password dbMid 500 (some "9876543210") (some "123456") (some "newpass1")
              false).fst.status = 200)
      ∧ (reset_password ⟨[⟨1, "9876543210", "old", 0⟩], [⟨5, "9876543210", "123456", 1000000, false⟩],
            [⟨2, 1, true⟩]⟩ 500 (some "9876543210") (some "123456") (some "newpass1")
            true).fst.status = 500
      ∧ applyOps ⟨[⟨1, "9876543210", "old", 0⟩], [⟨5, "9876543210", "123456", 1000000, false⟩],
            [⟨2, 1, true⟩]⟩
          (reset_password ⟨[⟨1, "9876543210", "old", 0⟩], [⟨5, "9876543210", "123456", 1000000, false⟩],
            [⟨2, 1, true⟩]⟩ 500 (some "9876543210") (some "123456") (some "newpass1") true).snd
          = ⟨[⟨1, "9876543210", "old", 0⟩], [⟨5, "9876543210", "123456", 1000000, false⟩],
            [⟨2, 1, true⟩]⟩ :=
  reset_password_nonatomic ⟨[⟨1, "9876543210", "old", 0⟩],
    [⟨5, "9876543210", "123456", 1000000, false⟩], [⟨2, 1, true⟩]⟩ 500
    (some "9876543210") (some "123456") (some "newpass1") (by decide)

/-- A `reset_password` call whose OTP lookup finds nothing (or whose
password field fails its checks) returns 400 and leaves the database
unchanged. -/
theorem reset_password_no_otp (db : DB) (now : Nat) (m c : String)
    (newpw : Option String)
    (hm : (m == "") = false) (hc : (c == "") = false)
    (hfind : findValidOtp db now m c = none) :
    (reset_password db now (some m) (some c) newpw false).fst.status = 400
    ∧ applyOps db (reset_password db now (some m) (some c) newpw false).snd = db := by
  cases newpw with
  | none =>
    refine ⟨?_, ?_⟩ <;> simp [reset_password, strTruthy, applyOps]
  | some pw =>
    by_cases hp : (pw == "") = true
    · refine ⟨?_, ?_⟩ <;> simp [reset_password, strTruthy, hm, hc, hp, applyOps]
    · by_cases hlen : pw.length < 6
      · refine ⟨?_, ?_⟩ <;> simp [reset_password, strTruthy, hm, hc, hp, hlen, applyOps]
      · refine ⟨?_, ?_⟩ <;>
          simp [reset_password, strTruthy, hm, hc, hp, hlen, hfind, applyOps, applyOp]

/-- C4: once a `reset_password` call succeeds using an OTP row (with at
most one OTP row carrying the presented pair, as the request lifecycle
maintains), every OTP row for the pair in the resulting state is marked
used, and a later `reset_password` presenting the same pair — with any
new password — fails with a 400 and changes nothing: a used OTP never
authorizes a second reset. -/
theorem used_otp_single_use (db : DB) (now now2 : Nat) (m c : String)
    (newpw newpw2 : Option String)
    (huniq : (db.password_reset_otps.filter
        (fun r => r.mobile_number == m && r.otp_code == c)).length ≤ 1)
    (hs : (reset_password db now (some m) (some c) newpw false).fst.status = 200) :
    ∀ db1, db1 = applyOps db (reset_password db now (some m) (some c) newpw false).snd →
      (∀ row ∈ db1.password_reset_otps, row.mobile_number = m → row.otp_code = c →
        row.is_used = true)
      ∧ (reset_password db1 now2 (some m) (some c) newpw2 false).fst.status = 400
      ∧ applyOps db1 (reset_password db1 now2 (some m) (some c) newpw2 false).snd = db1 := by
  obtain ⟨m', c', pw, r, rest, hm', hc', hpw', -, hm, hc, hp, hlen, hf, hsnd, hrest⟩ :=
    reset_password_success db now (some m) (some c) newpw false hs
  cases hm'
  cases hc'
  have hmatch : otpMatches now m c r = true := List.find?_some hf
  have hmem : r ∈ db.password_reset_otps := List.mem_of_find?_eq_some hf
  simp only [otpMatches, Bool.and_eq_true, beq_iff_eq] at hmatch
  obtain ⟨⟨⟨hrm, hrc⟩, hru⟩, -⟩ := hmatch
  have hrfil : r ∈ db.password_reset_otps.filter
      (fun row => row.mobile_number == m && row.otp_code == c) := by
    rw [List.mem_filter]
    exact ⟨hmem, by simp [hrm, hrc]⟩
  have hkey : ∀ row ∈ db.password_reset_otps, row.mobile_number = m → row.otp_code = c →
      row = r := by
    intro row hrow h1 h2
    have : row ∈ db.password_reset_otps.filter
        (fun row => row.mobile_number == m && row.otp_code == c) := by
      rw [List.mem_filter]
      exact ⟨hrow, by simp [h1, h2]⟩
    exact eq_of_length_le_one huniq this hrfil
  rintro db1 rfl
  have hotps := (reset_ops_effect db m c (hashPassword pw) now r.id rest hrest).1
  rw [hsnd]
  have hall : ∀ row ∈ (applyOps db (DbOp.readOtp m c :: DbOp.updatePassword m
      (hashPassword pw) now :: DbOp.markOtpUsed r.id :: DbOp.readCred m
      :: rest)).password_reset_otps,
      row.mobile_number = m → row.otp_code = c → row.is_used = true := by
    rw [hotps]
    intro row hrow h1 h2
    obtain ⟨row0, hrow0, hrw⟩ := List.mem_map.mp hrow
    by_cases hid : (row0.id == r.id) = true
    · rw [if_pos hid] at hrw
      rw [← hrw]
    · rw [if_neg (by simp_all) ] at hrw
      subst hrw
      have := hkey row0 hrow0 h1 h2
      subst this
      simp at hid
  have hfind1 : findValidOtp (applyOps db (DbOp.readOtp m c :: DbOp.updatePassword m
      (hashPassword pw) now :: DbOp.markOtpUsed r.id :: DbOp.readCred m
      :: rest)) now2 m c = none := by
    rw [findValidOtp, List.find?_eq_none]
    intro row hrow
    simp only [otpMatches, Bool.and_eq_true, beq_iff_eq, not_and]
    intro hcon hle
    have := hall row hrow hcon.1.1 hcon.1.2
    rw [this] at hcon
    simp at hcon
  obtain ⟨h400, hnochange⟩ := reset_password_no_otp _ now2 m c newpw2 hm hc hfind1
  exact ⟨hall, h400, hnochange⟩

theorem used_otp_single_use_witness :
    (∀ row ∈ (applyOps ⟨[⟨1, "9876543210", "old", 0⟩], [⟨5, "9876543210", "123456", 1000000, false⟩], []⟩ (reset_password ⟨[⟨1, "9876543210", "old", 0⟩], [⟨5, "9876543210", "123456", 1000000, false⟩], []⟩ 500 (some "9876543210") (some "123456") (some "newpass1") false).snd).password_reset_otps,
        row.mobile_number = "9876543210" → row.otp_code = "123456" → row.is_used = true)
    ∧ (reset_password (applyOps ⟨[⟨1, "9876543210", "old", 0⟩], [⟨5, "9876543210", "123456", 1000000, false⟩], []⟩ (reset_password ⟨[⟨1, "9876543210", "old", 0⟩], [⟨5, "9876543210", "123456", 1000000, false⟩], []⟩ 500 (some "9876543210") (some "123456") (some "newpass1") false).snd) 600 (some "9876543210") (some "123456") (some "newpass2") false).fst.status = 400
    ∧ applyOps (applyOps ⟨[⟨1, "9876543210", "old", 0⟩], [⟨5, "9876543210", "123456", 1000000, false⟩], []⟩ (reset_password ⟨[⟨1, "9876543210", "old", 0⟩], [⟨5, "9876543210", "123456", 1000000, false⟩], []⟩ 500 (some "9876543210") (some "123456") (some "newpass1") false).snd) (reset_password (applyOps ⟨[⟨1, "9876543210", "old", 0⟩], [⟨5, "9876543210", "123456", 1000000, false⟩], []⟩ (reset_password ⟨[⟨1, "9876543210", "old", 0⟩], [⟨5, "9876543210", "123456", 1000000, false⟩], []⟩ 500 (some "9876543210") (some "123456") (some "newpass1") false).snd) 600 (some "9876543210") (some "123456") (some "newpass2") false).snd = (applyOps ⟨[⟨1, "9876543210", "old", 0⟩], [⟨5, "9876543210", "123456", 1000000, false⟩], []⟩ (reset_password ⟨[⟨1, "9876543210", "old", 0⟩], [⟨5, "9876543210", "123456", 1000000, false⟩], []⟩ 500 (some "9876543210") (some "123456") (some "newpass1") false).snd) :=
  used_otp_single_use ⟨[⟨1, "9876543210", "old", 0⟩], [⟨5, "9876543210", "123456", 1000000, false⟩], []⟩ 500 600 "9876543210" "123456"
    (some "newpass1") (some "newpass2") (by decide) (by decide)
    (applyOps ⟨[⟨1, "9876543210", "old", 0⟩], [⟨5, "9876543210", "123456", 1000000, false⟩], []⟩ (reset_password ⟨[⟨1, "9876543210", "old", 0⟩], [⟨5, "9876543210", "123456", 1000000, false⟩], []⟩ 500 (some "9876543210") (some "123456") (some "newpass1") false).snd) rfl

theorem hexDigits_lt16 {b : Nat} (h : b < 16) : hexDigits b = [Nat.digitChar b] := by
  rw [hexDigits]
  simp [h]

theorem hexDigits_byte {b : Nat} (h16 : 16 ≤ b) (h : b < 256) :
    hexDigits b = [Nat.digitChar (b / 16), Nat.digitChar (b % 16)] := by
  rw [hexDigits]
  have h1 : ¬ b < 16 := by omega
  simp only [h1, dite_false]
  rw [hexDigits_lt16 (by omega)]
  rfl

theorem byteToHex_data {b : Nat} (h : b < 256) :
    (byteToHex b).data = [Nat.digitChar (b / 16), Nat.digitChar (b % 16)] := by
  by_cases h16 : b < 16
  · have hd : b / 16 = 0 := by omega
    have hm : b % 16 = b := by omega
    simp only [byteToHex, hexDigits_lt16 h16, String.length_mk, List.length_singleton, hd, hm]
    norm_num
    rfl
  · simp only [byteToHex, hexDigits_byte (by omega) h, String.length_mk]
    norm_num

theorem byteToHex_length {b : Nat} (h : b < 256) : (byteToHex b).data.length = 2 := by
  rw [byteToHex_data h]
  rfl

theorem byteToHex_hex {b : Nat} (h : b < 256) :
    ∀ ch ∈ (byteToHex b).data, isLowerHexDigit ch = true := by
  rw [byteToHex_data h]
  intro ch hch
  rcases List.mem_cons.mp hch with rfl | hch2
  · exact digitChar_isLowerHex (by omega)
  · rcases List.mem_singleton.mp hch2 with rfl
    exact digitChar_isLowerHex (Nat.mod_lt _ (by omega))

theorem sha256_bytes_lt (msg : List Nat) : ∀ b ∈ sha256 msg, b < 256 := by
  intro b hb
  rw [sha256] at hb
  obtain ⟨w, -, hbw⟩ := List.mem_flatMap.mp hb
  simp only [wordToBytes, List.mem_cons, List.mem_singleton, List.not_mem_nil,
    or_false] at hbw
  rcases hbw with rfl | rfl | rfl | rfl <;> exact Nat.mod_lt _ (by omega)

theorem compressBlock_length (h blk : List Nat) : (compressBlock h blk).length = 8 := rfl

theorem sha256_length (msg : List Nat) : (sha256 msg).length = 32 := by
  have h8 : ∀ (blocks : List (List Nat)) (H : List Nat), H.length = 8 →
      (blocks.foldl compressBlock H).length = 8 := by
    intro blocks
    induction blocks with
    | nil => intro H h; exact h
    | cons b t ih => intro H _; exact ih _ (compressBlock_length H b)
  have h4 : ∀ l : List Nat, (List.map (List.length ∘ wordToBytes) l).sum = 4 * l.length := by
    intro l
    induction l with
    | nil => rfl
    | cons a t ih =>
      simp only [List.map_cons, List.sum_cons, ih, List.length_cons]
      simp [wordToBytes]
      ring
  rw [sha256, List.length_flatMap, h4,
    h8 (toBlocks (sha256Pad msg)) sha256H0 rfl]

theorem foldl_append_data (l : List String) (acc : String) :
    (l.foldl (fun r s => r ++ s) acc).data = acc.data ++ (l.map String.data).flatten := by
  induction l generalizing acc with
  | nil => simp
  | cons s t ih =>
    rw [List.foldl_cons, ih]
    simp

theorem hashPassword_data (p : String) :
    (hashPassword p).data
      = (((sha256 (utf8Encode p)).map byteToHex).map String.data).flatten := by
  show (String.join ((sha256 (utf8Encode p)).map byteToHex)).data = _
  rw [show ∀ l : List String, String.join l = l.foldl (fun r s => r ++ s) "" from fun _ => rfl]
  rw [foldl_append_data]
  rfl

theorem flatten_hex_length (bytes : List Nat) (h : ∀ b ∈ bytes, b < 256) :
    (((bytes.map byteToHex).map String.data).flatten).length = 2 * bytes.length := by
  induction bytes with
  | nil => rfl
  | cons b t ih =>
    simp only [List.map_cons, List.flatten_cons, List.length_append, List.length_cons]
    rw [byteToHex_length (h b (by simp)), ih (fun x hx => h x (by simp [hx]))]
    ring

theorem hashPassword_length (p : String) : (hashPassword p).length = 64 := by
  show (hashPassword p).data.length = 64
  rw [hashPassword_data, flatten_hex_length _ (sha256_bytes_lt _), sha256_length]

theorem hashPassword_hex (p : String) :
    ∀ ch ∈ (hashPassword p).data, isLowerHexDigit ch = true := by
  intro ch hch
  rw [hashPassword_data] at hch
  obtain ⟨piece, hpiece, hchp⟩ := List.mem_flatten.mp hch
  obtain ⟨s, hsmem, rfl⟩ := List.mem_map.mp hpiece
  obtain ⟨b, hbmem, rfl⟩ := List.mem_map.mp hsmem
  exact byteToHex_hex (sha256_bytes_lt _ b hbmem) ch hchp

/-- After a successful reset for mobile number `m`, every credential row
for `m` carries exactly `hashPassword pw` as its stored hash. -/
theorem reset_stores_hash (db : DB) (now : Nat) (mobile otp : Option String)
    (pw m : String) (hm : mobile = some m)
    (hs : (reset_password db now mobile otp (some pw) false).fst.status = 200) :
    ∀ r1 ∈ (applyOps db (reset_password db now mobile otp (some pw)
        false).snd).user_credentials,
      r1.mobile_number = m → r1.password_hash = hashPassword pw := by
  obtain ⟨m', c, pw', r, rest, hm', hc', hpw', -, -, -, -, -, -, hsnd, hrest⟩ :=
    reset_password_success db now mobile otp (some pw) false hs
  rw [hm] at hm'
  cases hm'
  cases hpw'
  rw [hsnd]
  rw [(reset_ops_effect db m c (hashPassword pw) now r.id rest hrest).2]
  intro r1 hr1 hmob
  obtain ⟨row0, hrow0, hrw⟩ := List.mem_map.mp hr1
  by_cases hb : (row0.mobile_number == m) = true
  · rw [if_pos hb] at hrw
    rw [← hrw]
  · rw [if_neg (by simp_all)] at hrw
    subst hrw
    rw [hmob] at hb
    simp at hb

/-- C10: `hashPassword` is a pure deterministic unsalted function — the
SHA-256 digest of the password's UTF-8 encoding rendered as exactly 64
lowercase hexadecimal characters — so two successful `reset_password`
calls with the same new password, for any mobile numbers and database
states, store the identical `password_hash` value. -/
theorem hashPassword_sha256_hex :
    (∀ p : String,
      hashPassword p = String.join ((sha256 (utf8Encode p)).map byteToHex)
      ∧ (hashPassword p).length = 64
      ∧ ∀ ch ∈ (hashPassword p).data, isLowerHexDigit ch = true)
    ∧ (∀ (db1 db2 : DB) (now1 now2 : Nat) (mobile1 mobile2 otp1 otp2 : Option String)
        (pw m1 m2 : String),
        mobile1 = some m1 → mobile2 = some m2 →
        (reset_password db1 now1 mobile1 otp1 (some pw) false).fst.status = 200 →
        (reset_password db2 now2 mobile2 otp2 (some pw) false).fst.status = 200 →
        ∀ r1 ∈ (applyOps db1 (reset_password db1 now1 mobile1 otp1 (some pw)
            false).snd).user_credentials,
        ∀ r2 ∈ (applyOps db2 (reset_password db2 now2 mobile2 otp2 (some pw)
            false).snd).user_credentials,
          r1.mobile_number = m1 → r2.mobile_number = m2 →
          r1.password_hash = hashPassword pw ∧ r2.password_hash = r1.password_hash) := by
  refine ⟨fun p => ⟨rfl, hashPassword_length p, hashPassword_hex p⟩, ?_⟩
  intro db1 db2 now1 now2 mobile1 mobile2 otp1 otp2 pw m1 m2 hm1 hm2 hs1 hs2
    r1 hr1 r2 hr2 hmob1 hmob2
  have h1 := reset_stores_hash db1 now1 mobile1 otp1 pw m1 hm1 hs1 r1 hr1 hmob1
  have h2 := reset_stores_hash db2 now2 mobile2 otp2 pw m2 hm2 hs2 r2 hr2 hmob2
  exact ⟨h1, by rw [h1, h2]⟩

theorem hashPassword_sha256_hex_witness :
    ((hashPassword "newpass1").length = 64
      ∧ ∀ ch ∈ (hashPassword "newpass1").data, isLowerHexDigit ch = true)
    ∧ (∀ r1 ∈ (applyOps ⟨[⟨1, "9876543210", "old", 0⟩], [⟨5, "9876543210", "123456", 1000000, false⟩], []⟩ (reset_password ⟨[⟨1, "9876543210", "old", 0⟩], [⟨5, "9876543210", "123456", 1000000, false⟩], []⟩ 500 (some "9876543210") (some "123456") (some "newpass1") false).snd).user_credentials,
       ∀ r2 ∈ (applyOps ⟨[⟨2, "8876543210", "old2", 0⟩], [⟨6, "8876543210", "222222", 1000000, false⟩], []⟩ (reset_password ⟨[⟨2, "8876543210", "old2", 0⟩], [⟨6, "8876543210", "222222", 1000000, false⟩], []⟩ 600 (some "8876543210") (some "222222") (some "newpass1") false).snd).user_credentials,
        r1.mobile_number = "9876543210" → r2.mobile_number = "8876543210" →
        r1.password_hash = hashPassword "newpass1"
        ∧ r2.password_hash = r1.password_hash) :=
  ⟨⟨(hashPassword_sha256_hex.1 "newpass1").2.1, (hashPassword_sha256_hex.1 "newpass1").2.2⟩,
   hashPassword_sha256_hex.2 ⟨[⟨1, "9876543210", "old", 0⟩], [⟨5, "9876543210", "123456", 1000000, false⟩], []⟩ ⟨[⟨2, "8876543210", "old2", 0⟩], [⟨6, "8876543210", "222222", 1000000, false⟩], []⟩ 500 600
     (some "9876543210") (some "8876543210") (some "123456") (some "222222")
     "newpass1" "9876543210" "8876543210" rfl rfl (by decide) (by decide)⟩
